import Mathlib

/-!
Verification of the live-api session proxy.

Shallow embedding of the repository's core components:
- `ToolExecutor` (src/live-api/tools/tool_executor.py)
- `SessionManager` (src/live-api/core/session_manager.py)
- `LiveSession` / `WebSocketProxyServer` message loop
  (src/live-api/server/websocket_proxy.py)

Conventions of the embedding:
- Python dicts keyed by strings are association lists with Python's
  insert/overwrite semantics (overwrite keeps the key's position).
- Exceptions are `Except String`; a function that cannot raise is total.
- Handler execution (`await`, `asyncio.wait_for`) is modelled by an
  explicit outcome: the handler either returns a value, raises, or
  exceeds the timeout.  The numeric timeout only ever appears in the
  timeout error message, so it is carried as its rendered string
  (`"30.0"` for the default `30.0` seconds).
- Tool argument/result values are represented by a small value type;
  their precise shape never influences control flow in the source.
-/

namespace LiveApi

/-- Serializable values passed to and returned from tool handlers. -/
inductive ToolValue where
  | str (s : String)
  | num (n : Int)
  | boolean (b : Bool)
  deriving DecidableEq, Repr

/-- A flat keyword-argument mapping, as decoded from a tool-call payload. -/
abbrev ArgsMap := List (String × ToolValue)

/-- Observable outcome of running a registered handler under
`asyncio.wait_for`: it produces a value, raises an exception with a
message (`str(e)`), or exceeds the timeout. -/
inductive HOutcome where
  | value (v : ToolValue)
  | raises (msg : String)
  | timesOut
  deriving DecidableEq, Repr

/-- A tool handler: a callable receiving the keyword arguments. -/
abbrev Handler := ArgsMap → HOutcome

/-- Python-dict insertion: overwrite in place if the key is present,
append otherwise (`self._tools[name] = func`). -/
def dictInsert {α : Type} : List (String × α) → String → α → List (String × α)
  | [], k, v => [(k, v)]
  | (k', v') :: rest, k, v =>
    if k' = k then (k, v) :: rest else (k', v') :: dictInsert rest k v

/-- Python-dict lookup (`name in self._tools` / `self._tools[name]`). -/
def dictLookup {α : Type} : List (String × α) → String → Option α
  | [], _ => none
  | (k', v') :: rest, k => if k' = k then some v' else dictLookup rest k

/-- One function declaration record built by `register_tool`; the
`parameters` key is present only when a truthy schema was supplied. -/
structure ToolDeclaration where
  name : String
  description : String
  parameters : Option ToolValue
  deriving DecidableEq, Repr

/-- `tool_executor.py`, class `ToolExecutor`: registered handlers keyed by
name, plus the declaration list (appended on every registration). -/
structure ToolExecutor where
  timeout : String
  tools : List (String × Handler)
  tool_declarations : List ToolDeclaration

/-- `ToolExecutor(timeout=...)`. -/
def ToolExecutor.init (timeout : String) : ToolExecutor :=
  { timeout := timeout, tools := [], tool_declarations := [] }

/-- `ToolExecutor()` with the default `timeout=30.0`. -/
def ToolExecutor.mkDefault : ToolExecutor := ToolExecutor.init "30.0"

/-- `register_tool` (decorator application included): stores the handler
under `name` in the `_tools` dict and appends one declaration record to
`_tool_declarations`. -/
def ToolExecutor.register_tool (ex : ToolExecutor) (name description : String)
    (parameters : Option ToolValue) (func : Handler) : ToolExecutor :=
  { ex with
    tools := dictInsert ex.tools name func,
    tool_declarations := ex.tool_declarations ++
      [{ name := name, description := description, parameters := parameters }] }

/-- The grouping record returned by `get_tool_declarations`. -/
structure DeclarationGroup where
  function_declarations : List ToolDeclaration
  deriving DecidableEq, Repr

/-- `get_tool_declarations`: the whole declaration list wrapped in a
single `function_declarations` group. -/
def ToolExecutor.get_tool_declarations (ex : ToolExecutor) : List DeclarationGroup :=
  [{ function_declarations := ex.tool_declarations }]

/-- `types.FunctionCall` as consumed by `execute_tool`: `id`, `name` and
an optional `args` mapping (`None` when absent). -/
structure FunctionCall where
  id : Option String
  name : String
  args : Option ArgsMap
  deriving DecidableEq, Repr

/-- The `response` dict of a `FunctionResponse`: exactly one of
`{"result": v}` or `{"error": msg}`. -/
inductive ResponsePayload where
  | result (v : ToolValue)
  | error (msg : String)
  deriving DecidableEq, Repr

/-- `types.FunctionResponse(id=..., name=..., response=...)`. -/
structure FunctionResponse where
  id : Option String
  name : String
  response : ResponsePayload
  deriving DecidableEq, Repr

/-- The `try/except` block of `execute_tool` around the handler call:
success wraps the value in `{"result": ...}`, `asyncio.TimeoutError`
yields the timeout message, any other exception yields the failure
message. -/
def outcomeResponse (timeout : String) : HOutcome → ResponsePayload
  | .value v => .result v
  | .timesOut => .error ("Function execution timed out after " ++ timeout ++ "s")
  | .raises msg => .error ("Function execution failed: " ++ msg)

/-- `execute_tool`: unknown names yield the `Unknown function` error
envelope; otherwise the handler runs on `function_call.args or {}` and
its outcome is wrapped by the `try/except` block.  The function is total:
no exception escapes. -/
def ToolExecutor.execute_tool (ex : ToolExecutor) (function_call : FunctionCall) :
    FunctionResponse :=
  match dictLookup ex.tools function_call.name with
  | none =>
    { id := function_call.id, name := function_call.name,
      response := .error ("Unknown function: " ++ function_call.name) }
  | some func =>
    { id := function_call.id, name := function_call.name,
      response := outcomeResponse ex.timeout (func (function_call.args.getD [])) }

/-- `execute_multiple`: `asyncio.gather` over one task per call returns
the results in task (= input) order, so the sequential denotation is a
map over the input list. -/
def ToolExecutor.execute_multiple (ex : ToolExecutor) (function_calls : List FunctionCall) :
    List FunctionResponse :=
  function_calls.map ex.execute_tool

/-! ## SessionManager (src/live-api/core/session_manager.py) -/

/-- `SessionState` enumeration. -/
inductive SessionState where
  | disconnected
  | connecting
  | connected
  | interrupted
  | closing
  | closed
  | error
  deriving DecidableEq, Repr

/-- One `_conversation_history` entry appended by `send_text`. -/
structure HistoryEntry where
  role : String
  content : String
  type : String
  deriving DecidableEq, Repr

/-- `SessionManager` observable state: `_state`, whether `_session` is
set, `_resumption_token`, `_conversation_history`, and the sequence of
states delivered to the `on_state_change` callback (one entry per actual
state change, in order). -/
structure SessionManager where
  state : SessionState
  hasSession : Bool
  resumption_token : Option String
  conversation_history : List HistoryEntry
  notifications : List SessionState
  deriving DecidableEq, Repr

/-- Freshly constructed manager: `DISCONNECTED`, no session, no token,
empty history. -/
def SessionManager.init : SessionManager :=
  { state := .disconnected, hasSession := false, resumption_token := none,
    conversation_history := [], notifications := [] }

/-- `_set_state`: mutate and fire the callback only when the value
actually changes. -/
def SessionManager.set_state (m : SessionManager) (new_state : SessionState) :
    SessionManager :=
  if m.state = new_state then m
  else { m with state := new_state, notifications := m.notifications ++ [new_state] }

/-- `connect`: unconditionally enters `CONNECTING`; the SDK call either
succeeds (`ok = true`: `_session` is assigned, state becomes `CONNECTED`,
returns `True`) or raises (`ok = false`: state becomes `ERROR`, returns
`False`). -/
def SessionManager.connect (m : SessionManager) (ok : Bool) : SessionManager × Bool :=
  let m1 := m.set_state .connecting
  if ok then
    (({ m1 with hasSession := true }).set_state .connected, true)
  else
    (m1.set_state .error, false)

/-- `disconnect`: a no-op without a live `_session`; otherwise `CLOSING`,
context-manager exit (failures swallowed), `_session = None`, `CLOSED`. -/
def SessionManager.disconnect (m : SessionManager) : SessionManager :=
  if m.hasSession then
    ({ m.set_state .closing with hasSession := false }).set_state .closed
  else m

/-- `send_text`: raises `RuntimeError` unless connected with a live
session; on success the upstream send is followed by exactly one history
append (the upstream transport itself is an external collaborator and is
modelled as succeeding). -/
def SessionManager.send_text (m : SessionManager) (text : String) :
    Except String SessionManager :=
  if m.state = .connected ∧ m.hasSession then
    .ok { m with conversation_history := m.conversation_history ++
      [{ role := "user", content := text, type := "text" }] }
  else .error "Session not connected"

/-- `send_audio`: same guard as `send_text`, no observable mutation. -/
def SessionManager.send_audio (m : SessionManager) : Except String SessionManager :=
  if m.state = .connected ∧ m.hasSession then .ok m
  else .error "Session not connected"

/-- `send_tool_response`: same guard as `send_text`, no mutation. -/
def SessionManager.send_tool_response (m : SessionManager) : Except String SessionManager :=
  if m.state = .connected ∧ m.hasSession then .ok m
  else .error "Session not connected"

/-- One upstream event as inspected by the `receive` loop: the
`server_content.interrupted` flag and an optional resumption-token
update. -/
structure LiveEvent where
  interrupted : Bool
  resumptionToken : Option String
  deriving DecidableEq, Repr

/-- Per-event side effects inside `receive`'s `async for` body. -/
def SessionManager.process_event (m : SessionManager) (e : LiveEvent) : SessionManager :=
  let m1 := if e.interrupted then m.set_state .interrupted else m
  match e.resumptionToken with
  | some t => { m1 with resumption_token := some t }
  | none => m1

/-- `receive`: raises unless `CONNECTED` or `INTERRUPTED` with a live
session; otherwise folds the side effects of the events yielded during
one call. -/
def SessionManager.receive (m : SessionManager) (events : List LiveEvent) :
    Except String SessionManager :=
  if (m.state = .connected ∨ m.state = .interrupted) ∧ m.hasSession then
    .ok (events.foldl SessionManager.process_event m)
  else .error "Session not connected"

/-- `resume`: `INTERRUPTED → CONNECTED`, otherwise nothing. -/
def SessionManager.resume (m : SessionManager) : SessionManager :=
  if m.state = .interrupted then m.set_state .connected else m

/-- `reset`: `disconnect()`, clear history and token, `connect()` (whose
success is the oracle `ok`). -/
def SessionManager.reset (m : SessionManager) (ok : Bool) : SessionManager :=
  let m1 := m.disconnect
  let m2 := { m1 with conversation_history := [], resumption_token := none }
  (m2.connect ok).1

/-- The operations a caller can apply to a `SessionManager`, with the
environment's choices (connection success, upstream events) inlined. -/
inductive SessionOp where
  | connect (ok : Bool)
  | disconnect
  | sendText (text : String)
  | sendAudio
  | sendToolResult
  | receive (events : List LiveEvent)
  | resume
  | reset (ok : Bool)
  deriving DecidableEq, Repr

/-- Apply one operation; a raised `RuntimeError` leaves the manager
unchanged (the guard fires before any mutation in the source). -/
def SessionManager.step (m : SessionManager) : SessionOp → SessionManager
  | .connect ok => (m.connect ok).1
  | .disconnect => m.disconnect
  | .sendText t => match m.send_text t with | .ok m' => m' | .error _ => m
  | .sendAudio => match m.send_audio with | .ok m' => m' | .error _ => m
  | .sendToolResult => match m.send_tool_response with | .ok m' => m' | .error _ => m
  | .receive evs => match m.receive evs with | .ok m' => m' | .error _ => m
  | .resume => m.resume
  | .reset ok => m.reset ok

/-- Run a sequence of operations from the freshly constructed manager. -/
def runOps (ops : List SessionOp) : SessionManager :=
  ops.foldl SessionManager.step SessionManager.init

/-- The transition edges defined in §4.2 of the specification, read as
"there is a defined edge from `a` into the given target". -/
def spec_edge : SessionState → SessionState → Bool
  | a, .connecting => a == .disconnected || a == .error
  | a, .connected => a == .connecting || a == .interrupted
  | a, .interrupted => a == .connected
  | _, .closing => true
  | a, .closed => a == .closing
  | a, .error => a == .connecting || a == .connected
  | _, .disconnected => false

/-- The edges the code actually follows: §4.2's edges, except that
`connect()` enters `Connecting` from any state. -/
def code_edge (a b : SessionState) : Bool :=
  b == .connecting || spec_edge a b

/-- Every consecutive pair along `start :: states` is an `E`-edge. -/
def chainOk (E : SessionState → SessionState → Bool) :
    SessionState → List SessionState → Bool
  | _, [] => true
  | s, n :: rest => E s n && chainOk E n rest

/-- Final element of `start :: states`. -/
def lastState : SessionState → List SessionState → SessionState
  | s, [] => s
  | _, n :: rest => lastState n rest

/-- No two consecutive elements are equal. -/
def noAdjDup : List SessionState → Bool
  | [] => true
  | [_] => true
  | a :: b :: rest => (a != b) && noAdjDup (b :: rest)

/-! ## WebSocket proxy message loop (src/live-api/server/websocket_proxy.py) -/

/-- Frames `LiveSession` pushes to the browser from the inbound
dispatcher (`_send_to_client` itself never raises: send errors on a
closed socket are swallowed). -/
inductive ClientOutMsg where
  | pong
  | sessionReset
  deriving DecidableEq, Repr

/-- `LiveSession` observable state: the wrapped `SessionManager`
(`gemini_session`, with `hasGemini` standing for it being non-`None`),
the `is_active` flag, the per-session counters, and the frames sent to
the client by the inbound dispatcher. -/
structure LiveSession where
  sm : SessionManager
  hasGemini : Bool
  is_active : Bool
  turn_count : Nat
  tool_calls_count : Nat
  outbox : List ClientOutMsg
  deriving DecidableEq, Repr

/-- `LiveSession.send_audio`: silently dropped unless a Gemini session
exists and the session is active; forwarding raises when the manager is
not connected. -/
def LiveSession.send_audio (ls : LiveSession) : Except String LiveSession :=
  if ls.hasGemini ∧ ls.is_active then
    match ls.sm.send_audio with
    | .ok sm' => .ok { ls with sm := sm' }
    | .error e => .error e
  else .ok ls

/-- `LiveSession.send_text`: same gating as `send_audio`; on success the
manager appends one history entry. -/
def LiveSession.send_text (ls : LiveSession) (text : String) : Except String LiveSession :=
  if ls.hasGemini ∧ ls.is_active then
    match ls.sm.send_text text with
    | .ok sm' => .ok { ls with sm := sm' }
    | .error e => .error e
  else .ok ls

/-- `LiveSession.reset_session`: resets the manager (reconnect success is
the oracle `connectOk`), zeroes the counters and emits a `session_reset`
frame; never raises. -/
def LiveSession.reset_session (ls : LiveSession) (connectOk : Bool) : LiveSession :=
  if ls.hasGemini then
    { ls with
      sm := ls.sm.reset connectOk
      turn_count := 0
      tool_calls_count := 0
      outbox := ls.outbox ++ [.sessionReset] }
  else ls

/-- The `data["data"]` field of an `audio` frame, as seen by
`bytes.fromhex(data["data"])`: absent (`KeyError`), present but not hex
(`ValueError`), or decodable (the byte content never affects control
flow). -/
inductive HexPayload where
  | missing
  | invalid
  | decoded
  deriving DecidableEq, Repr

/-- A parsed JSON-object frame as consumed by `_handle_message`:
`data.get("type")`, the audio payload field and the `data["text"]`
field. -/
structure ClientFrame where
  ftype : Option String
  dataField : HexPayload
  textField : Option String
  deriving DecidableEq, Repr

/-- Result of `json.loads` on the inbound text: a decode error, a valid
JSON value that is not an object (`data.get` then raises
`AttributeError`), or an object frame. -/
inductive InboundParse where
  | notJson
  | jsonNonObject
  | jsonObject (frame : ClientFrame)
  deriving DecidableEq, Repr

/-- One inbound websocket text payload: its JSON parse result, and
whether the raw text is valid hex (`bytes.fromhex` succeeds) — consulted
only on the non-JSON path. -/
structure InboundPayload where
  parsed : InboundParse
  rawHex : Bool
  deriving DecidableEq, Repr

/-- `WebSocketProxyServer._handle_message`: dispatch on `data.get("type")`;
any type other than the four known ones falls through with no effect.
Exceptions (`KeyError`, `ValueError`, `RuntimeError` from the sends) are
returned as `.error`; no mutation precedes a raise on any path. -/
def handle_message (ls : LiveSession) (fr : ClientFrame) (connectOk : Bool) :
    Except String LiveSession :=
  match fr.ftype with
  | some "audio" =>
    match fr.dataField with
    | .missing => .error "KeyError: data"
    | .invalid => .error "ValueError: non-hexadecimal number found in fromhex"
    | .decoded => ls.send_audio
  | some "text" =>
    match fr.textField with
    | none => .error "KeyError: text"
    | some t => ls.send_text t
  | some "reset" => .ok (ls.reset_session connectOk)
  | some "ping" => .ok { ls with outbox := ls.outbox ++ [.pong] }
  | _ => .ok ls

/-- Whether the `while True` body of `handle_client` loops again or hits
`break` (after which the `finally` block disconnects the session and
removes it from the registry). -/
inductive LoopOutcome where
  | continueLoop
  | breakLoop
  deriving DecidableEq, Repr

/-- One iteration of `handle_client`'s message loop: JSON frames go to
`_handle_message`; non-JSON text is hex-decoded and sent as raw audio;
any exception is caught by the iteration's `except` clause, which
`break`s out of the loop. -/
def loop_iteration (ls : LiveSession) (msg : InboundPayload) (connectOk : Bool) :
    LiveSession × LoopOutcome :=
  match msg.parsed with
  | .jsonObject fr =>
    match handle_message ls fr connectOk with
    | .ok ls' => (ls', .continueLoop)
    | .error _ => (ls, .breakLoop)
  | .jsonNonObject => (ls, .breakLoop)
  | .notJson =>
    match msg.rawHex with
    | false => (ls, .breakLoop)
    | true =>
      match ls.send_audio with
      | .ok ls' => (ls', .continueLoop)
      | .error _ => (ls, .breakLoop)

/-! ## Invariant of reachable `SessionManager` states -/

/-- Edge relation actually maintained by the code: a `code_edge`
connecting two distinct states (`_set_state` never records a
self-transition). -/
def inv_edge (a b : SessionState) : Bool := code_edge a b && (a != b)

/-- Invariant of every reachable manager: the recorded state changes form
an `inv_edge` chain out of `Disconnected`, the chain ends at the current
state, and in `Connected`/`Interrupted` a live `_session` exists. -/
def Inv (m : SessionManager) : Prop :=
  chainOk inv_edge .disconnected m.notifications = true ∧
  lastState .disconnected m.notifications = m.state ∧
  ((m.state = .connected ∨ m.state = .interrupted) → m.hasSession = true)

/-! ## Concrete instances used in witnesses and counterexamples -/

/-- A handler that always returns the string `"ok"`. -/
def echoHandler : Handler := fun _ => .value (.str "ok")

/-- First handler registered under a duplicated name. -/
def handlerOne : Handler := fun _ => .value (.str "one")

/-- Second handler registered under a duplicated name. -/
def handlerTwo : Handler := fun _ => .value (.str "two")

/-- A handler that raises (like a Python `TypeError` for a missing
required positional argument) when called with no arguments. -/
def strictHandler : Handler := fun args =>
  if args.isEmpty then .raises "missing argument" else .value (.str "ok")

/-- Executor with the single tool `echo_tool`. -/
def egExec : ToolExecutor :=
  ToolExecutor.mkDefault.register_tool "echo_tool" "echoes" none echoHandler

/-- Executor on which `dup_tool` was registered twice. -/
def twiceExec : ToolExecutor :=
  (ToolExecutor.mkDefault.register_tool "dup_tool" "first" none handlerOne).register_tool
    "dup_tool" "second" none handlerTwo

/-- Executor with the single tool `strict_tool`. -/
def strictExec : ToolExecutor :=
  ToolExecutor.mkDefault.register_tool "strict_tool" "needs args" none strictHandler

/-- An invocation of a name that was never registered. -/
def ghostCall : FunctionCall := { id := some "call-1", name := "ghost_tool", args := none }

/-- An invocation of `echo_tool` (succeeds). -/
def echoCall : FunctionCall := { id := some "call-2", name := "echo_tool", args := none }

/-- A manager that connected successfully once. -/
def connectedSM : SessionManager := (SessionManager.init.connect true).1

/-- A live proxy session whose upstream manager is connected and which is
actively handling messages. -/
def connectedLS : LiveSession :=
  { sm := connectedSM, hasGemini := true, is_active := true, turn_count := 1,
    tool_calls_count := 0, outbox := [] }

/-- A parsed frame whose declared type is none of the four dispatched
ones. -/
def bogusFrame : ClientFrame :=
  { ftype := some "bogus", dataField := .decoded, textField := none }

/-! ## Helper lemmas -/

theorem set_state_state (m : SessionManager) (ns : SessionState) :
    (m.set_state ns).state = ns := by
  unfold SessionManager.set_state
  split
  · rename_i h; exact h
  · rfl

theorem set_state_hasSession (m : SessionManager) (ns : SessionState) :
    (m.set_state ns).hasSession = m.hasSession := by
  unfold SessionManager.set_state
  split <;> rfl

theorem set_state_history (m : SessionManager) (ns : SessionState) :
    (m.set_state ns).conversation_history = m.conversation_history := by
  unfold SessionManager.set_state
  split <;> rfl

theorem set_state_token (m : SessionManager) (ns : SessionState) :
    (m.set_state ns).resumption_token = m.resumption_token := by
  unfold SessionManager.set_state
  split <;> rfl

theorem chainOk_append (E : SessionState → SessionState → Bool)
    (s : SessionState) (l : List SessionState) (x : SessionState) :
    chainOk E s (l ++ [x]) = (chainOk E s l && E (lastState s l) x) := by
  induction l generalizing s with
  | nil => simp [chainOk, lastState]
  | cons a rest ih => simp [chainOk, lastState, ih, Bool.and_assoc]

theorem lastState_append (s : SessionState) (l : List SessionState) (x : SessionState) :
    lastState s (l ++ [x]) = x := by
  induction l generalizing s with
  | nil => rfl
  | cons a rest ih => simpa [lastState] using ih a

theorem noAdjDup_of_chainOk (s : SessionState) (l : List SessionState)
    (h : chainOk (fun a b => a != b) s l = true) : noAdjDup l = true := by
  induction l generalizing s with
  | nil => rfl
  | cons a rest ih =>
    simp only [chainOk, Bool.and_eq_true] at h
    cases rest with
    | nil => rfl
    | cons b rest2 =>
      have h2 := h.2
      simp only [chainOk, Bool.and_eq_true] at h2
      simp only [noAdjDup, Bool.and_eq_true]
      exact ⟨h2.1, ih a h.2⟩

theorem code_edge_into_connecting (a : SessionState) : code_edge a .connecting = true := by
  cases a <;> rfl

theorem code_edge_into_closing (a : SessionState) : code_edge a .closing = true := by
  cases a <;> rfl

theorem inv_set_state {m : SessionManager} {ns : SessionState} (h : Inv m)
    (hE : m.state ≠ ns → code_edge m.state ns = true)
    (hS : (ns = .connected ∨ ns = .interrupted) → m.hasSession = true) :
    Inv (m.set_state ns) := by
  by_cases hc : m.state = ns
  · unfold SessionManager.set_state
    rw [if_pos hc]
    exact h
  · obtain ⟨h1, h2, h3⟩ := h
    unfold SessionManager.set_state
    rw [if_neg hc]
    refine ⟨?_, ?_, ?_⟩
    · show chainOk inv_edge .disconnected (m.notifications ++ [ns]) = true
      rw [chainOk_append, h2, h1]
      simp [inv_edge, hE hc, bne_iff_ne, hc]
    · exact lastState_append _ _ _
    · intro hcase
      exact hS hcase

theorem inv_connect (m : SessionManager) (ok : Bool) (h : Inv m) :
    Inv (m.connect ok).1 := by
  have h1 : Inv (m.set_state .connecting) :=
    inv_set_state h (fun _ => code_edge_into_connecting _) (by simp)
  cases ok with
  | true =>
    show Inv (({ m.set_state .connecting with hasSession := true }).set_state .connected)
    have h2 : Inv { m.set_state .connecting with hasSession := true } :=
      ⟨h1.1, h1.2.1, fun _ => rfl⟩
    refine inv_set_state h2 (fun _ => ?_) (fun _ => rfl)
    have hst : ({ m.set_state .connecting with hasSession := true } : SessionManager).state
        = SessionState.connecting := set_state_state m .connecting
    rw [hst]
    rfl
  | false =>
    show Inv ((m.set_state .connecting).set_state .error)
    refine inv_set_state h1 (fun _ => ?_) (by simp)
    rw [set_state_state]
    rfl

theorem inv_disconnect (m : SessionManager) (h : Inv m) : Inv m.disconnect := by
  unfold SessionManager.disconnect
  split
  · have h1 : Inv (m.set_state .closing) :=
      inv_set_state h (fun _ => code_edge_into_closing _) (by simp)
    have h2 : Inv { m.set_state .closing with hasSession := false } := by
      refine ⟨h1.1, h1.2.1, ?_⟩
      intro hcase
      rcases hcase with hcase | hcase <;>
        simp [set_state_state] at hcase
    refine inv_set_state h2 (fun _ => ?_) (by simp)
    have hst : ({ m.set_state .closing with hasSession := false } : SessionManager).state
        = SessionState.closing := set_state_state m .closing
    rw [hst]
    rfl
  · exact h

theorem inv_process_event (m : SessionManager) (e : LiveEvent) (h : Inv m)
    (hs : m.state = .connected ∨ m.state = .interrupted) :
    Inv (m.process_event e) ∧
      ((m.process_event e).state = .connected ∨ (m.process_event e).state = .interrupted) := by
  have hsess : m.hasSession = true := h.2.2 hs
  unfold SessionManager.process_event
  have key : Inv (if e.interrupted then m.set_state .interrupted else m) ∧
      ((if e.interrupted then m.set_state .interrupted else m).state = .connected ∨
       (if e.interrupted then m.set_state .interrupted else m).state = .interrupted) := by
    by_cases hi : e.interrupted
    · rw [if_pos hi]
      refine ⟨inv_set_state h (fun hne => ?_) (fun _ => hsess), Or.inr (set_state_state _ _)⟩
      rcases hs with hc | hc
      · rw [hc]; rfl
      · exact absurd hc hne
    · rw [if_neg hi]
      exact ⟨h, hs⟩
  cases hr : e.resumptionToken with
  | some t =>
    refine ⟨⟨key.1.1, key.1.2.1, ?_⟩, key.2⟩
    intro hcase
    exact key.1.2.2 hcase
  | none => exact key

theorem inv_foldl_events (evs : List LiveEvent) :
    ∀ m : SessionManager, Inv m → (m.state = .connected ∨ m.state = .interrupted) →
      Inv (evs.foldl SessionManager.process_event m) := by
  induction evs with
  | nil => intro m h _; exact h
  | cons e rest ih =>
    intro m h hs
    have hpe := inv_process_event m e h hs
    exact ih _ hpe.1 hpe.2

theorem inv_resume (m : SessionManager) (h : Inv m) : Inv m.resume := by
  unfold SessionManager.resume
  split
  · rename_i hc
    refine inv_set_state h (fun _ => ?_) (fun _ => h.2.2 (Or.inr hc))
    rw [hc]
    rfl
  · exact h

theorem inv_reset (m : SessionManager) (ok : Bool) (h : Inv m) : Inv (m.reset ok) := by
  have h1 := inv_disconnect m h
  have h2 : Inv { m.disconnect with conversation_history := [], resumption_token := none } :=
    ⟨h1.1, h1.2.1, h1.2.2⟩
  exact inv_connect _ ok h2

theorem inv_step (m : SessionManager) (op : SessionOp) (h : Inv m) : Inv (m.step op) := by
  cases op with
  | connect ok => exact inv_connect m ok h
  | disconnect => exact inv_disconnect m h
  | sendText t =>
    show Inv (match m.send_text t with | .ok m' => m' | .error _ => m)
    unfold SessionManager.send_text
    split
    · rename_i m' heq
      split at heq
      · cases heq
        exact ⟨h.1, h.2.1, h.2.2⟩
      · cases heq
    · exact h
  | sendAudio =>
    show Inv (match m.send_audio with | .ok m' => m' | .error _ => m)
    unfold SessionManager.send_audio
    split
    · rename_i m' heq
      split at heq
      · cases heq
        exact h
      · cases heq
    · exact h
  | sendToolResult =>
    show Inv (match m.send_tool_response with | .ok m' => m' | .error _ => m)
    unfold SessionManager.send_tool_response
    split
    · rename_i m' heq
      split at heq
      · cases heq
        exact h
      · cases heq
    · exact h
  | receive evs =>
    show Inv (match m.receive evs with | .ok m' => m' | .error _ => m)
    unfold SessionManager.receive
    split
    · rename_i m' heq
      split at heq
      · rename_i hg
        cases heq
        exact inv_foldl_events evs m h hg.1
      · cases heq
    · exact h
  | resume => exact inv_resume m h
  | reset ok => exact inv_reset m ok h

theorem inv_foldl_steps (ops : List SessionOp) :
    ∀ m : SessionManager, Inv m → Inv (ops.foldl SessionManager.step m) := by
  induction ops with
  | nil => intro m h; exact h
  | cons op rest ih => intro m h; exact ih _ (inv_step m op h)

theorem inv_init : Inv SessionManager.init := by
  refine ⟨rfl, rfl, ?_⟩
  intro hcase
  rcases hcase with hcase | hcase <;> cases hcase

theorem inv_runOps (ops : List SessionOp) : Inv (runOps ops) :=
  inv_foldl_steps ops SessionManager.init inv_init

theorem chainOk_mono {E F : SessionState → SessionState → Bool}
    (hEF : ∀ a b, E a b = true → F a b = true) :
    ∀ (s : SessionState) (l : List SessionState),
      chainOk E s l = true → chainOk F s l = true := by
  intro s l
  induction l generalizing s with
  | nil => intro _; rfl
  | cons a rest ih =>
    intro h
    simp only [chainOk, Bool.and_eq_true] at h ⊢
    exact ⟨hEF _ _ h.1, ih a h.2⟩

theorem dictLookup_insert_self {α : Type} (l : List (String × α)) (k : String) (v : α) :
    dictLookup (dictInsert l k v) k = some v := by
  induction l with
  | nil => simp [dictInsert, dictLookup]
  | cons kv rest ih =>
    obtain ⟨k', v'⟩ := kv
    by_cases hc : k' = k
    · simp [dictInsert, dictLookup, hc]
    · simp [dictInsert, dictLookup, hc, ih]

theorem connect_fst_state_true (m : SessionManager) :
    ((m.connect true).1).state = .connected := by
  show (({ m.set_state .connecting with hasSession := true }).set_state .connected).state = _
  exact set_state_state _ _

theorem connect_fst_history (m : SessionManager) (ok : Bool) :
    ((m.connect ok).1).conversation_history = m.conversation_history := by
  cases ok with
  | true =>
    show (({ m.set_state .connecting with hasSession := true }).set_state
      .connected).conversation_history = _
    rw [set_state_history]
    exact set_state_history _ _
  | false =>
    show ((m.set_state .connecting).set_state .error).conversation_history = _
    rw [set_state_history]
    exact set_state_history _ _

theorem connect_fst_token (m : SessionManager) (ok : Bool) :
    ((m.connect ok).1).resumption_token = m.resumption_token := by
  cases ok with
  | true =>
    show (({ m.set_state .connecting with hasSession := true }).set_state
      .connected).resumption_token = _
    rw [set_state_token]
    exact set_state_token _ _
  | false =>
    show ((m.set_state .connecting).set_state .error).resumption_token = _
    rw [set_state_token]
    exact set_state_token _ _

/-! ## Claim theorems -/

/-- Claim C2: `execute_tool` always returns a result envelope carrying
the invocation's `id` and `name` (the Lean function is total, mirroring
that no exception escapes); an unregistered name yields the
`Unknown function: <name>` error, and a registered handler's outcome is
wrapped as `{result: v}` with `v` unchanged, the timeout error message,
or the `Function execution failed: <message>` error. -/
theorem execute_tool_contract (ex : ToolExecutor) (fc : FunctionCall) :
    (ex.execute_tool fc).id = fc.id ∧
    (ex.execute_tool fc).name = fc.name ∧
    (dictLookup ex.tools fc.name = none →
      (ex.execute_tool fc).response = .error ("Unknown function: " ++ fc.name)) ∧
    (∀ func : Handler, dictLookup ex.tools fc.name = some func →
      (ex.execute_tool fc).response =
        match func (fc.args.getD []) with
        | .value v => .result v
        | .timesOut => .error ("Function execution timed out after " ++ ex.timeout ++ "s")
        | .raises msg => .error ("Function execution failed: " ++ msg)) := by
  unfold ToolExecutor.execute_tool
  cases hl : dictLookup ex.tools fc.name with
  | none =>
    refine ⟨rfl, rfl, fun _ => rfl, fun func hfunc => ?_⟩
    exact Option.noConfusion hfunc
  | some f =>
    refine ⟨rfl, rfl, fun hnone => ?_, fun func hfunc => ?_⟩
    · exact Option.noConfusion hnone
    · cases hfunc
      show outcomeResponse ex.timeout (f (fc.args.getD [])) = _
      cases f (fc.args.getD []) <;> rfl

/-- Witness for C2: on the empty executor, `ghost_tool` yields the
`Unknown function` error; on `egExec`, `echo_tool` succeeds with the
handler's value. -/
theorem execute_tool_contract_witness :
    (ToolExecutor.mkDefault.execute_tool ghostCall).response =
      .error "Unknown function: ghost_tool" ∧
    (egExec.execute_tool echoCall).response = .result (.str "ok") := by
  constructor
  · exact (execute_tool_contract ToolExecutor.mkDefault ghostCall).2.2.1 rfl
  · exact (execute_tool_contract egExec echoCall).2.2.2 echoHandler rfl

/-- Claim C3: `execute_multiple` returns one result per invocation in
input order, the `i`-th result being exactly `execute_tool` of the `i`-th
invocation, so a failing invocation never blocks or alters the others;
concretely, `[ghost (fails), echo (succeeds)]` yields
`[error-for-ghost, success-for-echo]`. -/
theorem execute_multiple_contract (ex : ToolExecutor) (fcs : List FunctionCall) :
    (ex.execute_multiple fcs).length = fcs.length ∧
    (∀ i : Nat, (ex.execute_multiple fcs).get? i = (fcs.get? i).map ex.execute_tool) ∧
    egExec.execute_multiple [ghostCall, echoCall] =
      [{ id := some "call-1", name := "ghost_tool",
         response := .error "Unknown function: ghost_tool" },
       { id := some "call-2", name := "echo_tool", response := .result (.str "ok") }] := by
  refine ⟨?_, ?_, by decide⟩
  · simp [ToolExecutor.execute_multiple]
  · intro i
    simp [ToolExecutor.execute_multiple]

/-- Claim C4 (amended): registering a name twice leaves the handler map
pointing at the last handler, so executing that name runs the
last-registered handler; but `_tool_declarations` gains one record per
registration call (duplicates for a re-registered name), and
`get_tool_declarations` groups the whole list under a single
`function_declarations` collection. -/
theorem register_tool_overwrite_contract (ex : ToolExecutor) (n d1 d2 : String)
    (p1 p2 : Option ToolValue) (f1 f2 : Handler) :
    dictLookup ((ex.register_tool n d1 p1 f1).register_tool n d2 p2 f2).tools n = some f2 ∧
    (∀ (id : Option String) (args : Option ArgsMap),
      ((ex.register_tool n d1 p1 f1).register_tool n d2 p2 f2).execute_tool
          { id := id, name := n, args := args } =
        { id := id, name := n,
          response := outcomeResponse ex.timeout (f2 (args.getD [])) }) ∧
    ((ex.register_tool n d1 p1 f1).register_tool n d2 p2 f2).tool_declarations =
      ex.tool_declarations ++
        [{ name := n, description := d1, parameters := p1 },
         { name := n, description := d2, parameters := p2 }] ∧
    ((ex.register_tool n d1 p1 f1).register_tool n d2 p2 f2).get_tool_declarations =
      [{ function_declarations :=
          ((ex.register_tool n d1 p1 f1).register_tool n d2 p2 f2).tool_declarations }] := by
  have hlook : dictLookup ((ex.register_tool n d1 p1 f1).register_tool n d2 p2 f2).tools n
      = some f2 := dictLookup_insert_self _ n f2
  refine ⟨hlook, fun id args => ?_, ?_, rfl⟩
  · show (match dictLookup ((ex.register_tool n d1 p1 f1).register_tool n d2 p2 f2).tools n with
      | none => _ | some func => _) = _
    rw [hlook]
    rfl
  · simp [ToolExecutor.register_tool]

/-- Counterexample for C4: after registering `dup_tool` twice, the
declarations collection contains two records named `dup_tool`, not
exactly one per registered name. -/
theorem register_tool_duplicate_declarations :
    twiceExec.tool_declarations.countP (fun d => d.name == "dup_tool") = 2 ∧
    ¬ twiceExec.tool_declarations.countP (fun d => d.name == "dup_tool") = 1 ∧
    twiceExec.get_tool_declarations =
      [{ function_declarations :=
          [{ name := "dup_tool", description := "first", parameters := none },
           { name := "dup_tool", description := "second", parameters := none }] }] := by
  refine ⟨by decide, by decide, by decide⟩

/-- Claim C9: executing a registered tool whose `args` field is `None`
invokes the handler with the empty keyword mapping — it never fails
before the handler runs — and the handler's own error comes back as a
`Function execution failed` result. -/
theorem execute_tool_null_args (ex : ToolExecutor) (id : Option String) (n : String)
    (func : Handler) (h : dictLookup ex.tools n = some func) :
    ex.execute_tool { id := id, name := n, args := none } =
      { id := id, name := n, response := outcomeResponse ex.timeout (func []) } := by
  show (match dictLookup ex.tools n with
    | none => _ | some f => _) = _
  rw [h]
  rfl

/-- Witness for C9: `strict_tool`'s handler raises on the empty mapping,
and the invocation with `args = None` returns the corresponding
`Function execution failed` error envelope. -/
theorem execute_tool_null_args_witness :
    dictLookup strictExec.tools "strict_tool" = some strictHandler ∧
    strictExec.execute_tool { id := some "call-3", name := "strict_tool", args := none } =
      { id := some "call-3", name := "strict_tool",
        response := .error "Function execution failed: missing argument" } := by
  refine ⟨rfl, ?_⟩
  exact execute_tool_null_args strictExec (some "call-3") "strict_tool" strictHandler rfl

/-- Counterexample for C1: calling `connect()` twice (both succeeding)
drives the state through `Connected → Connecting`, which is not a §4.2
edge — `connect()` is not guarded by `Disconnected/Error`. -/
theorem connect_from_connected_breaks_spec_edges :
    (runOps [SessionOp.connect true, SessionOp.connect true]).notifications =
      [.connecting, .connected, .connecting, .connected] ∧
    chainOk spec_edge SessionState.disconnected
      (runOps [SessionOp.connect true, SessionOp.connect true]).notifications = false := by
  exact ⟨by decide, by decide⟩

/-- Claim C1 (amended): over every operation sequence, each actual state
change follows a §4.2 edge extended with `s → Connecting` for every `s`
(because `connect()` — also when invoked by `reset()` — enters
`Connecting` unconditionally); the extended edge set still has no
`Disconnected → Interrupted` edge, so that jump never occurs. -/
theorem state_transitions_follow_code_edges (ops : List SessionOp) :
    chainOk code_edge SessionState.disconnected (runOps ops).notifications = true ∧
    code_edge SessionState.disconnected SessionState.interrupted = false := by
  refine ⟨?_, by decide⟩
  refine chainOk_mono (fun a b hab => ?_) _ _ (inv_runOps ops).1
  unfold inv_edge at hab
  rw [Bool.and_eq_true] at hab
  exact hab.1

/-- Claim C5: on every reachable manager, `send_text` raises the
"Session not connected" error and leaves the history untouched whenever
the state is not `Connected`, and appends exactly one history entry when
it is. -/
theorem send_text_contract (ops : List SessionOp) (t : String) :
    (runOps ops).send_text t =
      if (runOps ops).state = .connected then
        .ok { runOps ops with conversation_history :=
          (runOps ops).conversation_history ++
            [{ role := "user", content := t, type := "text" }] }
      else .error "Session not connected" := by
  have hinv := inv_runOps ops
  unfold SessionManager.send_text
  by_cases hc : (runOps ops).state = .connected
  · rw [if_pos hc, if_pos ⟨hc, hinv.2.2 (Or.inl hc)⟩]
  · rw [if_neg hc, if_neg (fun hand => hc hand.1)]

/-- Claim C6: `reset()` (with the reconnection succeeding) ends in state
`Connected` with an empty conversation history and no resumption
token. -/
theorem reset_contract (m : SessionManager) :
    (m.reset true).state = .connected ∧
    (m.reset true).conversation_history = [] ∧
    (m.reset true).resumption_token = none := by
  refine ⟨connect_fst_state_true _, ?_, ?_⟩
  · show ((({ m.disconnect with conversation_history := [], resumption_token := none }
      : SessionManager).connect true).1).conversation_history = []
    rw [connect_fst_history]
  · show ((({ m.disconnect with conversation_history := [], resumption_token := none }
      : SessionManager).connect true).1).resumption_token = none
    rw [connect_fst_token]

/-- Claim C7: `resume()` is the identity (no mutation, no notification)
unless the state is `Interrupted`, in which case the state becomes
exactly `Connected` (with one notification). -/
theorem resume_contract (m : SessionManager) :
    m.resume = if m.state = .interrupted then
      { m with state := .connected, notifications := m.notifications ++ [.connected] }
    else m := by
  by_cases hc : m.state = .interrupted
  · simp [SessionManager.resume, SessionManager.set_state, hc]
  · simp [SessionManager.resume, hc]

/-- Claim C10: `_set_state` with the currently-held value performs no
mutation and fires no callback, and consequently the callback log of any
reachable manager never contains two consecutive equal states. -/
theorem set_state_callback_contract :
    (∀ (m : SessionManager) (s : SessionState), m.state = s → m.set_state s = m) ∧
    (∀ ops : List SessionOp, noAdjDup (runOps ops).notifications = true) := by
  constructor
  · intro m s h
    unfold SessionManager.set_state
    rw [if_pos h]
  · intro ops
    refine noAdjDup_of_chainOk .disconnected _
      (chainOk_mono (fun a b hab => ?_) _ _ (inv_runOps ops).1)
    unfold inv_edge at hab
    rw [Bool.and_eq_true] at hab
    exact hab.2

/-- Witness for C10: a same-value update on the fresh manager is the
identity, and a connect run produces a callback log with no adjacent
duplicates. -/
theorem set_state_callback_contract_witness :
    SessionManager.init.state = .disconnected ∧
    SessionManager.init.set_state .disconnected = SessionManager.init ∧
    noAdjDup (runOps [SessionOp.connect true]).notifications = true := by
  refine ⟨rfl, set_state_callback_contract.1 SessionManager.init .disconnected rfl,
    set_state_callback_contract.2 [SessionOp.connect true]⟩

/-- Counterexample for C8: a payload that is neither JSON nor valid hex
(e.g. the raw text "zz") raises `ValueError` in `bytes.fromhex`, which is
caught by the loop's `except` clause and `break`s — the message loop does
NOT continue, and the session is cleaned up. -/
theorem malformed_frame_terminates_loop :
    loop_iteration connectedLS { parsed := .notJson, rawHex := false } true =
      (connectedLS, .breakLoop) ∧
    ¬ (loop_iteration connectedLS { parsed := .notJson, rawHex := false } true).2 =
      LoopOutcome.continueLoop := by
  exact ⟨by decide, by decide⟩

/-- Claim C8 (amended): a parsed frame with an unknown (or missing)
`type` is silently ignored and the loop continues; a non-JSON payload is
treated as hex raw audio, and when it is valid hex on a connected active
session the loop continues; but when the non-JSON payload is not valid
hex — or a valid JSON payload is not an object — the raised exception
breaks the message loop, terminating the session. -/
theorem inbound_frame_handling_contract (ls : LiveSession) (connectOk : Bool) :
    (∀ fr : ClientFrame,
      fr.ftype ∉ ([some "audio", some "text", some "reset", some "ping"] :
        List (Option String)) →
      ∀ hx : Bool,
        loop_iteration ls { parsed := .jsonObject fr, rawHex := hx } connectOk =
          (ls, .continueLoop)) ∧
    (ls.hasGemini = true → ls.is_active = true → ls.sm.state = .connected →
      ls.sm.hasSession = true →
      loop_iteration ls { parsed := .notJson, rawHex := true } connectOk =
        (ls, .continueLoop)) ∧
    loop_iteration ls { parsed := .notJson, rawHex := false } connectOk =
      (ls, .breakLoop) ∧
    loop_iteration ls { parsed := .jsonNonObject, rawHex := true } connectOk =
      (ls, .breakLoop) := by
  refine ⟨?_, ?_, rfl, rfl⟩
  · intro fr hnot hx
    cases hft : fr.ftype with
    | none => simp [loop_iteration, handle_message, hft]
    | some s =>
      rw [hft] at hnot
      simp only [List.mem_cons, List.mem_singleton, not_or] at hnot
      have h1 : s ≠ "audio" := fun h => hnot.1 (by rw [h])
      have h2 : s ≠ "text" := fun h => hnot.2.1 (by rw [h])
      have h3 : s ≠ "reset" := fun h => hnot.2.2.1 (by rw [h])
      have h4 : s ≠ "ping" := fun h => hnot.2.2.2.1 (by rw [h])
      simp [loop_iteration, handle_message, hft, h1, h2, h3, h4]
  · intro hg ha hs hsess
    have hsa : ls.send_audio = Except.ok ls := by
      unfold LiveSession.send_audio SessionManager.send_audio
      rw [if_pos ⟨hg, ha⟩, if_pos ⟨hs, hsess⟩]
    show (match ls.send_audio with
      | .ok ls' => (ls', LoopOutcome.continueLoop)
      | .error _ => (ls, LoopOutcome.breakLoop)) = (ls, LoopOutcome.continueLoop)
    rw [hsa]

/-- Witness for C8's amended contract: an unknown-type frame and a valid
hex payload on a connected active session both leave the loop running. -/
theorem inbound_frame_handling_contract_witness :
    loop_iteration connectedLS { parsed := .jsonObject bogusFrame, rawHex := true } true =
      (connectedLS, .continueLoop) ∧
    loop_iteration connectedLS { parsed := .notJson, rawHex := true } true =
      (connectedLS, .continueLoop) := by
  constructor
  · exact (inbound_frame_handling_contract connectedLS true).1 bogusFrame (by decide) true
  · exact (inbound_frame_handling_contract connectedLS true).2.1 rfl rfl (by decide) (by decide)

end LiveApi
